import Mathlib

/-!
Verification development for the InterviewConnect job-application
automation system.  The definitions below are shallow embeddings of the
Python source: browser effects (Selenium calls) become explicit data
(page snapshots, per-strategy outcomes, window lists), and every fallible
operation returns a structured value instead of raising.
-/

/-! ## String helpers

`containsSubstr hay needle` models Python's `needle in hay` on strings. -/

def charsHavePrefixOf : List Char → List Char → Bool
  | [], _ => true
  | _ :: _, [] => false
  | a :: as, b :: bs => a == b && charsHavePrefixOf as bs

def charsContain (needle : List Char) : List Char → Bool
  | [] => charsHavePrefixOf needle []
  | b :: bs => charsHavePrefixOf needle (b :: bs) || charsContain needle bs

def containsSubstr (hay needle : String) : Bool :=
  charsContain needle.data hay.data

/-! ## Listing catalog (dice_step_3_catalog_jobs.py / dice_step_4_apply_to_job_index.py)

A `JobLink` models one `<a>` element of the results page: its resolved
`href` attribute, whether `is_displayed()` holds, and the page position
`location = {y, x}`.  A `DicePage` models the DOM as the list of all
anchor elements (`dom`) together with the match lists returned by the
eight specific CSS selectors of `_find_all_job_elements` (`sel`); the
ninth, generic selector `a[href*='/job-detail/']` is computed from `dom`
itself, since it matches every job-detail anchor of the DOM. -/

structure JobLink where
  href : String
  displayed : Bool
  y : Nat
  x : Nat
deriving DecidableEq, Repr

structure DicePage where
  dom : List JobLink
  sel : List (List JobLink)

def jobDetailMark : String := "/job-detail/"

/-- The test `href and '/job-detail/' in href` together with
`element.is_displayed()` from the collection loop. -/
def qualifies (e : JobLink) : Bool :=
  e.displayed && (e.href != "") && containsSubstr e.href jobDetailMark

/-- One iteration of the inner collection loop of `_find_all_job_elements`:
state is `(all_job_elements, seen_hrefs)`. -/
def catStep (st : List JobLink × List String) (e : JobLink) : List JobLink × List String :=
  if e.displayed && (e.href != "") && containsSubstr e.href jobDetailMark
      && !(st.2.contains e.href) then
    (st.1 ++ [e], st.2 ++ [e.href])
  else
    st

/-- The nested collection loops of `_find_all_job_elements`. -/
def collectJobs (lists : List (List JobLink)) : List JobLink × List String :=
  lists.foldl (fun st l => l.foldl catStep st) ([], [])

/-- Sort key comparison for `sort(key=lambda elem: (elem.location['y'], elem.location['x']))`:
lexicographic order on the `(y, x)` pair. -/
def posLe (a b : JobLink) : Bool :=
  decide (a.y < b.y) || (decide (a.y = b.y) && decide (a.x ≤ b.x))

/-- `_find_all_job_elements` (dice_step_3_catalog_jobs.py lines 113-161 and
the identical copy in dice_step_4_apply_to_job_index.py lines 197-240):
collect the matches of all nine selectors in order, keeping only visible
elements with a fresh `/job-detail/` href, then stable-sort by page
position. -/
def find_all_job_elements (p : DicePage) : List JobLink :=
  let selectorResults := p.sel ++ [p.dom.filter (fun e => containsSubstr e.href jobDetailMark)]
  let collected := (collectJobs selectorResults).1
  collected.mergeSort posLe

/-- `step_3_catalog_jobs` returns `total_jobs = len(job_elements)`
(0 when the initial wait times out or no elements are found). -/
def step_3_total_jobs (p : DicePage) (waitTimedOut : Bool) : Nat :=
  if waitTimedOut then 0 else (find_all_job_elements p).length

/-- Number of distinct listing hrefs on the page: the distinct
`/job-detail/` hrefs occurring among the anchors of the DOM. -/
def distinctJobHrefs (p : DicePage) : List String :=
  ((p.dom.filter (fun e => containsSubstr e.href jobDetailMark)).map (fun e => e.href)).dedup

/-! ### Catalog lemmas -/

theorem catStep_eq (st : List JobLink × List String) (e : JobLink) :
    catStep st e =
      if qualifies e && !(st.2.contains e.href) then (st.1 ++ [e], st.2 ++ [e.href]) else st := rfl

theorem containsSubstr_empty_jobDetail : containsSubstr "" jobDetailMark = false := by decide

theorem href_ne_of_contains {h : String} (hc : containsSubstr h jobDetailMark = true) :
    (h != "") = true := by
  rcases eq_or_ne h "" with rfl | hne
  · simp [containsSubstr_empty_jobDetail] at hc
  · simpa using hne


theorem catStep_pos {st : List JobLink × List String} {e : JobLink}
    (h : (qualifies e && !(st.2.contains e.href)) = true) :
    catStep st e = (st.1 ++ [e], st.2 ++ [e.href]) := by
  rw [catStep_eq, if_pos h]

theorem catStep_neg {st : List JobLink × List String} {e : JobLink}
    (h : (qualifies e && !(st.2.contains e.href)) = false) :
    catStep st e = st := by
  rw [catStep_eq, if_neg]
  intro hc
  rw [h] at hc
  exact Bool.noConfusion hc

theorem exists_mem_cons_split {e : JobLink} {rest : List JobLink} {s : String} :
    (∃ x ∈ e :: rest, qualifies x = true ∧ x.href = s) ↔
      (qualifies e = true ∧ e.href = s) ∨ ∃ x ∈ rest, qualifies x = true ∧ x.href = s := by
  constructor
  · rintro ⟨x, hx, hP⟩
    rcases List.mem_cons.mp hx with rfl | hx
    · exact Or.inl hP
    · exact Or.inr ⟨x, hx, hP⟩
  · rintro (h | ⟨x, hx, hP⟩)
    · exact ⟨e, List.mem_cons_self e rest, h⟩
    · exact ⟨x, List.mem_cons_of_mem _ hx, hP⟩

theorem seen_eq_href_foldl (es : List JobLink) :
    ∀ st : List JobLink × List String, st.2 = st.1.map (fun e => e.href) →
      (es.foldl catStep st).2 = (es.foldl catStep st).1.map (fun e => e.href) := by
  induction es with
  | nil => intro st h; simpa using h
  | cons e rest ih =>
      intro st h
      simp only [List.foldl_cons]
      apply ih
      cases hcond : (qualifies e && !(st.2.contains e.href)) with
      | true => rw [catStep_pos hcond]; simp [h]
      | false => rw [catStep_neg hcond]; exact h

theorem mem_seen_foldl (es : List JobLink) :
    ∀ (st : List JobLink × List String) (s : String),
      s ∈ (es.foldl catStep st).2 ↔
        s ∈ st.2 ∨ ∃ e ∈ es, qualifies e = true ∧ e.href = s := by
  induction es with
  | nil => intro st s; simp
  | cons e rest ih =>
      intro st s
      simp only [List.foldl_cons]
      rw [ih, exists_mem_cons_split]
      cases hcond : (qualifies e && !(st.2.contains e.href)) with
      | true =>
          rw [catStep_pos hcond]
          have hq : qualifies e = true := by
            have h' := hcond
            simp only [Bool.and_eq_true] at h'
            exact h'.1
          simp only [List.mem_append, List.mem_singleton]
          constructor
          · rintro ((hs | rfl) | he)
            · exact Or.inl hs
            · exact Or.inr (Or.inl ⟨hq, rfl⟩)
            · exact Or.inr (Or.inr he)
          · rintro (hs | (⟨_, rfl⟩ | he))
            · exact Or.inl (Or.inl hs)
            · exact Or.inl (Or.inr rfl)
            · exact Or.inr he
      | false =>
          rw [catStep_neg hcond]
          cases hq : qualifies e with
          | false =>
            constructor
            · rintro (hs | he)
              · exact Or.inl hs
              · exact Or.inr (Or.inr he)
            · rintro (hs | (⟨hq', _⟩ | he))
              · exact Or.inl hs
              · cases hq'
              · exact Or.inr he
          | true =>
            have hmem : e.href ∈ st.2 := by
              have hcc' : st.2.contains e.href = true := by
                cases hcc : st.2.contains e.href with
                | true => rfl
                | false => rw [hq, hcc] at hcond; simp at hcond
              simpa using hcc'
            constructor
            · rintro (hs | he)
              · exact Or.inl hs
              · exact Or.inr (Or.inr he)
            · rintro (hs | (⟨_, rfl⟩ | he))
              · exact Or.inl hs
              · exact Or.inl hmem
              · exact Or.inr he

theorem nodup_seen_foldl (es : List JobLink) :
    ∀ st : List JobLink × List String, st.2.Nodup → (es.foldl catStep st).2.Nodup := by
  induction es with
  | nil => intro st h; simpa using h
  | cons e rest ih =>
      intro st h
      simp only [List.foldl_cons]
      apply ih
      cases hcond : (qualifies e && !(st.2.contains e.href)) with
      | true =>
          rw [catStep_pos hcond]
          have hnc : ¬ e.href ∈ st.2 := by
            intro hmem
            have hcc : st.2.contains e.href = true := by simpa using hmem
            rw [hcc] at hcond
            simp at hcond
          simp [List.nodup_append, h, hnc]
      | false => rw [catStep_neg hcond]; exact h

theorem seen_eq_href_collect (lists : List (List JobLink)) :
    ∀ st : List JobLink × List String, st.2 = st.1.map (fun e => e.href) →
      (lists.foldl (fun st l => l.foldl catStep st) st).2 =
        (lists.foldl (fun st l => l.foldl catStep st) st).1.map (fun e => e.href) := by
  induction lists with
  | nil => intro st h; simpa using h
  | cons l rest ih =>
      intro st h
      simp only [List.foldl_cons]
      exact ih _ (seen_eq_href_foldl l st h)

theorem mem_seen_collect (lists : List (List JobLink)) :
    ∀ (st : List JobLink × List String) (s : String),
      s ∈ (lists.foldl (fun st l => l.foldl catStep st) st).2 ↔
        s ∈ st.2 ∨ ∃ l ∈ lists, ∃ e ∈ l, qualifies e = true ∧ e.href = s := by
  induction lists with
  | nil => intro st s; simp
  | cons l rest ih =>
      intro st s
      simp only [List.foldl_cons]
      rw [ih, mem_seen_foldl]
      constructor
      · rintro ((hs | he) | ⟨l', hl', he'⟩)
        · exact Or.inl hs
        · exact Or.inr ⟨l, List.mem_cons_self l rest, he⟩
        · exact Or.inr ⟨l', List.mem_cons_of_mem _ hl', he'⟩
      · rintro (hs | ⟨l', hl', he'⟩)
        · exact Or.inl (Or.inl hs)
        · rcases List.mem_cons.mp hl' with rfl | hl'
          · exact Or.inl (Or.inr he')
          · exact Or.inr ⟨l', hl', he'⟩

theorem nodup_seen_collect (lists : List (List JobLink)) :
    ∀ st : List JobLink × List String, st.2.Nodup →
      (lists.foldl (fun st l => l.foldl catStep st) st).2.Nodup := by
  induction lists with
  | nil => intro st h; simpa using h
  | cons l rest ih =>
      intro st h
      simp only [List.foldl_cons]
      exact ih _ (nodup_seen_foldl l st h)

theorem posLe_trans (a b c : JobLink) : posLe a b = true → posLe b c = true → posLe a c = true := by
  simp only [posLe, Bool.or_eq_true, Bool.and_eq_true, decide_eq_true_eq]
  omega

theorem posLe_total (a b : JobLink) : (posLe a b || posLe b a) = true := by
  simp only [posLe, Bool.or_eq_true, Bool.and_eq_true, decide_eq_true_eq]
  omega

theorem collected_href_nodup (p : DicePage) :
    (((collectJobs (p.sel ++ [p.dom.filter (fun e => containsSubstr e.href jobDetailMark)])).1.map
        (fun e => e.href))).Nodup := by
  unfold collectJobs
  rw [← seen_eq_href_collect _ ([], []) (by simp)]
  exact nodup_seen_collect _ ([], []) (by simp)

theorem mem_collected_href (p : DicePage)
    (hsub : ∀ l ∈ p.sel, ∀ e ∈ l, e ∈ p.dom)
    (hdisp : ∀ e ∈ p.dom, containsSubstr e.href jobDetailMark = true → e.displayed = true)
    (s : String) :
    s ∈ ((collectJobs (p.sel ++ [p.dom.filter (fun e => containsSubstr e.href jobDetailMark)])).1.map
        (fun e => e.href)) ↔ s ∈ distinctJobHrefs p := by
  unfold collectJobs
  rw [← seen_eq_href_collect _ ([], []) (by simp)]
  rw [mem_seen_collect]
  simp only [List.mem_nil_iff, false_or]
  unfold distinctJobHrefs
  rw [List.mem_dedup]
  constructor
  · rintro ⟨l, hl, e, he, hq, rfl⟩
    have hedom : e ∈ p.dom := by
      rcases List.mem_append.mp hl with hl' | hl'
      · exact hsub l hl' e he
      · rcases List.mem_singleton.mp hl' with rfl
        exact (List.mem_filter.mp he).1
    have hcontains : containsSubstr e.href jobDetailMark = true := by
      unfold qualifies at hq
      simp only [Bool.and_eq_true] at hq
      exact hq.2
    exact List.mem_map.mpr ⟨e, List.mem_filter.mpr ⟨hedom, hcontains⟩, rfl⟩
  · intro hs
    rcases List.mem_map.mp hs with ⟨e, hef, rfl⟩
    have hedom := (List.mem_filter.mp hef).1
    have hcontains := (List.mem_filter.mp hef).2
    refine ⟨p.dom.filter (fun e => containsSubstr e.href jobDetailMark),
      List.mem_append.mpr (Or.inr (List.mem_singleton.mpr rfl)), e, hef, ?_, rfl⟩
    unfold qualifies
    rw [hdisp e hedom hcontains, href_ne_of_contains hcontains, hcontains]
    rfl

theorem find_all_eq (p : DicePage) :
    find_all_job_elements p =
      ((collectJobs (p.sel ++ [p.dom.filter (fun e => containsSubstr e.href jobDetailMark)])).1).mergeSort
        posLe := rfl

/-- C1: cataloging is duplicate-free.  For every page whose DOM contains
`K` distinct listing links (distinct `/job-detail/` hrefs, all rendered
visible), the catalog built by `_find_all_job_elements` — collecting
candidates from every locator strategy in order and skipping any element
whose href was already seen — has exactly `K` entries, its hrefs are
pairwise distinct, and it is sorted by page position top-to-bottom
(lexicographically by `(y, x)`).  The hypothesis `hsub` states that every
selector match is an element of the DOM; `hdisp` states that listing
links are displayed. -/
theorem catalog_dedup_invariant (p : DicePage)
    (hsub : ∀ l ∈ p.sel, ∀ e ∈ l, e ∈ p.dom)
    (hdisp : ∀ e ∈ p.dom, containsSubstr e.href jobDetailMark = true → e.displayed = true) :
    (find_all_job_elements p).length = (distinctJobHrefs p).length ∧
    ((find_all_job_elements p).map (fun e => e.href)).Nodup ∧
    (find_all_job_elements p).Pairwise (fun a b => posLe a b = true) := by
  rw [find_all_eq]
  have hperm :=
    List.mergeSort_perm
      (collectJobs (p.sel ++ [p.dom.filter (fun e => containsSubstr e.href jobDetailMark)])).1 posLe
  refine ⟨?_, ?_, ?_⟩
  · rw [hperm.length_eq]
    have hlen :
        ((collectJobs (p.sel ++ [p.dom.filter (fun e => containsSubstr e.href jobDetailMark)])).1.map
          (fun e => e.href)).length = (distinctJobHrefs p).length := by
      have hp := (List.perm_ext_iff_of_nodup (collected_href_nodup p)
        (List.nodup_dedup _)).mpr (mem_collected_href p hsub hdisp)
      exact hp.length_eq
    simpa using hlen
  · exact ((hperm.map (fun e => e.href)).nodup_iff).mpr (collected_href_nodup p)
  · exact List.sorted_mergeSort posLe_trans posLe_total _

def demoLinkA : JobLink := ⟨"https://www.dice.com/job-detail/aaa", true, 10, 0⟩

def demoLinkB : JobLink := ⟨"https://www.dice.com/job-detail/bbb", true, 20, 0⟩

def demoPage : DicePage :=
  { dom := [demoLinkA, demoLinkB]
    sel := [[demoLinkB], [demoLinkA], [demoLinkB], [demoLinkA, demoLinkB]] }

/-- Witness for C1 at a concrete page with two distinct listings matched
repeatedly by several selectors. -/
theorem catalog_dedup_invariant_witness :
    ((∀ l ∈ demoPage.sel, ∀ e ∈ l, e ∈ demoPage.dom) ∧
      (∀ e ∈ demoPage.dom, containsSubstr e.href jobDetailMark = true → e.displayed = true)) ∧
    ((find_all_job_elements demoPage).length = (distinctJobHrefs demoPage).length ∧
      ((find_all_job_elements demoPage).map (fun e => e.href)).Nodup ∧
      (find_all_job_elements demoPage).Pairwise (fun a b => posLe a b = true)) :=
  ⟨⟨by decide, by decide⟩, catalog_dedup_invariant demoPage (by decide) (by decide)⟩

/-! ## Click helpers (dice_step_10.py `_click_button_safely`,
dice_step_4_apply_to_job_index.py `_click_job_element`)

Each click method / strategy is modelled by its observable outcome. -/

/-- Outcome of one click method in `_click_button_safely`: the call
raised; or it ran and the button was still displayed afterwards; or the
button was no longer visible; or reading the button state itself raised
(stale element). -/
inductive ClickMethodOutcome
  | raised
  | stillVisible
  | notVisible
  | staleCheck
deriving DecidableEq, Repr

/-- `_click_button_safely` (dice_step_10.py lines 238-280): try the four
click methods in order; a method whose click ran and whose button
afterwards is gone (or stale) returns True; a raising method or a
still-visible button moves on; after the loop the function returns True
unconditionally. -/
def click_button_safely : List ClickMethodOutcome → Bool
  | [] => true
  | .raised :: rest => click_button_safely rest
  | .stillVisible :: rest => click_button_safely rest
  | .notVisible :: _ => true
  | .staleCheck :: _ => true

/-- Outcome of one click strategy in `_click_job_element`: the strategy
raised somewhere, or it completed and the quick success check
`driver.current_url != element.get_attribute('href')` evaluated to the
given boolean. -/
inductive ClickStratOutcome
  | raised
  | checked (urlNeqHref : Bool)
deriving DecidableEq, Repr

def click_job_element_loop : List ClickStratOutcome → Bool
  | [] => true
  | .raised :: rest => click_job_element_loop rest
  | .checked b :: rest => if b then true else click_job_element_loop rest

/-- `_click_job_element` (dice_step_4_apply_to_job_index.py lines
290-337): scroll the element into view (a raise here is the only False
exit), then try the four click strategies in order; a completed strategy
whose URL check passes returns True; otherwise, after exhausting all
strategies, the code "assumes the last strategy worked" and returns
True. -/
def click_job_element (scrollRaised : Bool) (strats : List ClickStratOutcome) : Bool :=
  if scrollRaised then false else click_job_element_loop strats

/-- C8: the click helpers treat an unconfirmed click as succeeded.  If
every method of `_click_button_safely` either raised or left the button
visible (no confirmation at all), the function still returns True; and
if every strategy of `_click_job_element` either raised or failed its
URL-change check, it also returns True. -/
theorem unconfirmed_click_returns_true
    (methods : List ClickMethodOutcome) (strats : List ClickStratOutcome)
    (hm : ∀ m ∈ methods, m = ClickMethodOutcome.raised ∨ m = ClickMethodOutcome.stillVisible)
    (hs : ∀ s ∈ strats, s = ClickStratOutcome.raised ∨ s = ClickStratOutcome.checked false) :
    click_button_safely methods = true ∧ click_job_element false strats = true := by
  constructor
  · induction methods with
    | nil => rfl
    | cons m rest ih =>
        rcases hm m (List.mem_cons_self m rest) with rfl | rfl
        · exact ih (fun x hx => hm x (List.mem_cons_of_mem _ hx))
        · exact ih (fun x hx => hm x (List.mem_cons_of_mem _ hx))
  · show click_job_element_loop strats = true
    induction strats with
    | nil => rfl
    | cons s rest ih =>
        rcases hs s (List.mem_cons_self s rest) with rfl | rfl
        · exact ih (fun x hx => hs x (List.mem_cons_of_mem _ hx))
        · simpa using ih (fun x hx => hs x (List.mem_cons_of_mem _ hx))

/-- Witness for C8: four raising methods, and strategies that all raised
or failed the URL check. -/
theorem unconfirmed_click_returns_true_witness :
    ((∀ m ∈ [ClickMethodOutcome.raised, ClickMethodOutcome.raised, ClickMethodOutcome.stillVisible,
        ClickMethodOutcome.raised],
      m = ClickMethodOutcome.raised ∨ m = ClickMethodOutcome.stillVisible) ∧
    (∀ s ∈ [ClickStratOutcome.raised, ClickStratOutcome.checked false, ClickStratOutcome.raised,
        ClickStratOutcome.raised],
      s = ClickStratOutcome.raised ∨ s = ClickStratOutcome.checked false)) ∧
    (click_button_safely [ClickMethodOutcome.raised, ClickMethodOutcome.raised,
        ClickMethodOutcome.stillVisible, ClickMethodOutcome.raised] = true ∧
      click_job_element false [ClickStratOutcome.raised, ClickStratOutcome.checked false,
        ClickStratOutcome.raised, ClickStratOutcome.raised] = true) :=
  ⟨⟨by decide, by decide⟩,
    unconfirmed_click_returns_true _ _ (by decide) (by decide)⟩

/-! ## Selecting a catalog entry (dice_step_4_apply_to_job_index.py) -/

structure Step4Result where
  success : Bool
  job_index : Nat
  error : Option String := none
  job_url : Option String := none
deriving DecidableEq, Repr

/-- Environment for the stages of `step_4_apply_to_job_index` that run
after the index checks: the already-applied heuristic for the target
element, the click attempt, and the post-click window/navigation state. -/
structure Step4Env where
  alreadyApplied : Bool
  scrollRaised : Bool
  clickStrats : List ClickStratOutcome
  newTabOpened : Bool
  newTabUrl : String
  sameWindowUrl : String

/-- `step_4_apply_to_job_index` (dice_step_4_apply_to_job_index.py lines
10-194): find all job elements with the shared catalog logic; report a
structured failure when none are found or when the requested index is
out of range; otherwise run the already-applied check, the click
attempt, and the new-tab / same-window navigation checks. -/
def step_4_apply_to_job_index (p : DicePage) (env : Step4Env) (currentUrlBefore : String)
    (job_index : Nat) : Step4Result :=
  let job_elements := find_all_job_elements p
  if job_elements.isEmpty then
    { success := false, job_index := job_index, error := some "No job elements found on page" }
  else if job_elements.length ≤ job_index then
    { success := false, job_index := job_index,
      error := some
        s!"Requested index {job_index} but only {job_elements.length} jobs available" }
  else if env.alreadyApplied then
    { success := false, job_index := job_index,
      error := some s!"Job at index {job_index} appears to be already applied to" }
  else if !(click_job_element env.scrollRaised env.clickStrats) then
    { success := false, job_index := job_index, error := some "Failed to click job element" }
  else if env.newTabOpened then
    if containsSubstr env.newTabUrl jobDetailMark then
      { success := true, job_index := job_index, job_url := some env.newTabUrl }
    else
      { success := false, job_index := job_index,
        error := some "New tab opened but not on job detail page" }
  else if env.sameWindowUrl != currentUrlBefore
      && containsSubstr env.sameWindowUrl jobDetailMark then
    { success := true, job_index := job_index, job_url := some env.sameWindowUrl }
  else if env.sameWindowUrl != currentUrlBefore then
    { success := true, job_index := job_index, job_url := some env.sameWindowUrl }
  else
    { success := false, job_index := job_index, error := some "Failed to navigate - URL unchanged" }

/-- C10: selecting a catalog entry is total over out-of-range indices.
For every `job_index` at or beyond the number of job elements found on
the page (including a page with zero elements), `step_4_apply_to_job_index`
returns a structured `{success: False, job_index, error}` value — the
same value whatever the click environment would have done, so nothing is
clicked — and never raises. -/
theorem step_4_out_of_range_total (p : DicePage) (env : Step4Env) (url : String)
    (job_index : Nat) (hge : (find_all_job_elements p).length ≤ job_index) :
    (step_4_apply_to_job_index p env url job_index).success = false ∧
    (step_4_apply_to_job_index p env url job_index).job_index = job_index ∧
    (step_4_apply_to_job_index p env url job_index).error.isSome = true ∧
    (∀ env' : Step4Env, ∀ url' : String,
      step_4_apply_to_job_index p env' url' job_index =
        step_4_apply_to_job_index p env url job_index) := by
  have main : ∀ (e : Step4Env) (u : String),
      step_4_apply_to_job_index p e u job_index =
        if (find_all_job_elements p).isEmpty then
          { success := false, job_index := job_index,
            error := some "No job elements found on page" }
        else
          { success := false, job_index := job_index,
            error := some
              s!"Requested index {job_index} but only {(find_all_job_elements p).length} jobs available" } := by
    intro e u
    unfold step_4_apply_to_job_index
    by_cases hemp : (find_all_job_elements p).isEmpty
    · simp [hemp]
    · simp [hemp, hge]
  rcases hemp : (find_all_job_elements p).isEmpty with _ | _
  · refine ⟨?_, ?_, ?_, ?_⟩ <;> simp [main, hemp]
  · refine ⟨?_, ?_, ?_, ?_⟩ <;> simp [main, hemp]

/-- Witness for C10: index 5 on the two-listing demo page. -/
theorem step_4_out_of_range_total_witness :
    (find_all_job_elements demoPage).length ≤ 5 ∧
    ((step_4_apply_to_job_index demoPage
        ⟨false, false, [], false, "", ""⟩ "https://www.dice.com/jobs" 5).success = false ∧
      (step_4_apply_to_job_index demoPage
        ⟨false, false, [], false, "", ""⟩ "https://www.dice.com/jobs" 5).job_index = 5 ∧
      (step_4_apply_to_job_index demoPage
        ⟨false, false, [], false, "", ""⟩ "https://www.dice.com/jobs" 5).error.isSome = true ∧
      (∀ env' : Step4Env, ∀ url' : String,
        step_4_apply_to_job_index demoPage env' url' 5 =
          step_4_apply_to_job_index demoPage
            ⟨false, false, [], false, "", ""⟩ "https://www.dice.com/jobs" 5)) :=
  ⟨by norm_num [find_all_eq]; decide,
    step_4_out_of_range_total demoPage ⟨false, false, [], false, "", ""⟩
      "https://www.dice.com/jobs" 5 (by norm_num [find_all_eq]; decide)⟩

/-! ## Returning to the checkpoint (dice_step_5_loop_return.py)

The driver is modelled as a list of open windows (handle + URL), the
handle of the current window, and the optional `driver.original_window`
attribute stored by step 4.  `driver.get` rewrites the URL of the
current window; closing removes the current window from the list;
switching changes the current handle. -/

structure BrowserWindow where
  handle : Nat
  url : String
deriving DecidableEq, Repr

structure DriverState where
  windows : List BrowserWindow
  current : Nat
  original_window : Option Nat
deriving DecidableEq, Repr

def currentUrl (s : DriverState) : String :=
  ((s.windows.find? (fun w => w.handle == s.current)).map (fun w => w.url)).getD ""

def navGet (s : DriverState) (u : String) : DriverState :=
  { s with windows := s.windows.map (fun w => if w.handle == s.current then ⟨w.handle, u⟩ else w) }

def closeCurrent (s : DriverState) : DriverState :=
  { s with windows := s.windows.filter (fun w => !(w.handle == s.current)) }

def switchTo (s : DriverState) (h : Nat) : DriverState :=
  { s with current := h }

/-- The fallback of step 5 when no original window was stored: switch
through the window list; on the first window whose URL contains the
target, close all others and stay there; if none matches, the loop ends
on the last window. -/
def findResultsWindow (s : DriverState) (target : String) : DriverState :=
  match s.windows.find? (fun w => containsSubstr w.url target) with
  | some w => { windows := [w], current := w.handle, original_window := s.original_window }
  | none =>
      { s with current := ((s.windows.getLast?.map (fun w => w.handle)).getD s.current) }

structure LoopReturnResult where
  ready_for_next : Bool
  current_url : String
  error : Option String := none
deriving DecidableEq, Repr

/-- `step_5_loop_return` (dice_step_5_loop_return.py lines 8-147): close
any extra tab and switch back to the original window (or hunt for the
results window), navigate to the stored checkpoint URL unless already
there, and re-navigate once more if the results-page verification
fails.  Both verification branches report `ready_for_next = True`.
`verifyOk` is the outcome of `_verify_on_results_page`; the readiness
check `_verify_ready_for_next_job` does not influence the returned
record, so it is not modelled.  The window-handling phase (lines 34-71)
is `step_5_window_phase`; the navigation and verification phase follows
in `step_5_loop_return`. -/
def step_5_window_phase (s0 : DriverState) (target : String) : DriverState :=
  if 1 < s0.windows.length then
    match s0.original_window with
    | some ow => switchTo (if s0.current ≠ ow then closeCurrent s0 else s0) ow
    | none => findResultsWindow s0 target
  else s0

def step_5_loop_return (s0 : DriverState) (filtered_results_url : String)
    (verifyOk : Bool) : DriverState × LoopReturnResult :=
  let s1 := step_5_window_phase s0 filtered_results_url
  let s2 := if currentUrl s1 = filtered_results_url then s1 else navGet s1 filtered_results_url
  if verifyOk then
    (s2, { ready_for_next := true, current_url := currentUrl s2 })
  else
    let s3 := navGet s2 filtered_results_url
    (s3, { ready_for_next := true, current_url := currentUrl s3,
           error := some "Failed to verify return to results page" })

theorem currentUrl_navGet (s : DriverState) (u : String)
    (h : (s.windows.find? (fun w => w.handle == s.current)).isSome) :
    currentUrl (navGet s u) = u := by
  unfold currentUrl navGet
  rcases s with ⟨ws, c, ow⟩
  simp only at h ⊢
  induction ws with
  | nil => rw [List.find?_nil] at h; simp at h
  | cons w rest ih =>
      by_cases hw : (w.handle == c) = true
      · rw [List.map_cons, if_pos hw, List.find?_cons_of_pos _ (by simpa using hw)]
        rfl
      · have hstep : List.find? (fun x => x.handle == c) (w :: rest) =
            List.find? (fun x => x.handle == c) rest := List.find?_cons_of_neg rest hw
        rw [hstep] at h
        rw [List.map_cons, if_neg hw]
        have hstep2 : List.find? (fun x => x.handle == c)
            (w :: List.map (fun x => if (x.handle == c) = true then
              (⟨x.handle, u⟩ : BrowserWindow) else x) rest) =
            List.find? (fun x => x.handle == c)
              (List.map (fun x => if (x.handle == c) = true then
                (⟨x.handle, u⟩ : BrowserWindow) else x) rest) :=
          List.find?_cons_of_neg _ hw
        rw [hstep2]
        exact ih h


def hasCurrent (s : DriverState) : Prop :=
  (s.windows.find? (fun w => w.handle == s.current)).isSome = true

theorem hasCurrent_navGet (s : DriverState) (u : String) (h : hasCurrent s) :
    hasCurrent (navGet s u) := by
  unfold hasCurrent navGet
  unfold hasCurrent at h
  rcases List.find?_isSome.mp h with ⟨w, hw, hp⟩
  apply List.find?_isSome.mpr
  refine ⟨if (w.handle == s.current) = true then ⟨w.handle, u⟩ else w,
    List.mem_map_of_mem _ hw, ?_⟩
  by_cases hc : (w.handle == s.current) = true
  · simp [hc]
  · rw [if_neg hc]
    exact hp

theorem hasCurrent_window_phase (s0 : DriverState) (target : String)
    (hcur : hasCurrent s0)
    (horig : ∀ ow, s0.original_window = some ow → ∃ w ∈ s0.windows, w.handle = ow) :
    hasCurrent (step_5_window_phase s0 target) := by
  by_cases hlen : 1 < s0.windows.length
  · cases how0 : s0.original_window with
    | none =>
        have hstate : step_5_window_phase s0 target = findResultsWindow s0 target := by
          unfold step_5_window_phase
          rw [if_pos hlen, how0]
        rw [hstate]
        unfold findResultsWindow
        cases hf : s0.windows.find? (fun w => containsSubstr w.url target) with
        | some w =>
            unfold hasCurrent
            apply List.find?_isSome.mpr
            exact ⟨w, List.mem_singleton.mpr rfl, by simp⟩
        | none =>
            have hne : s0.windows ≠ [] := by
              intro habs
              rw [habs] at hlen
              simp at hlen
            unfold hasCurrent
            apply List.find?_isSome.mpr
            refine ⟨s0.windows.getLast hne, List.getLast_mem hne, ?_⟩
            simp [List.getLast?_eq_getLast s0.windows hne]
    | some ow =>
        have hstate : step_5_window_phase s0 target =
            switchTo (if s0.current ≠ ow then closeCurrent s0 else s0) ow := by
          unfold step_5_window_phase
          rw [if_pos hlen, how0]
        rw [hstate]
        obtain ⟨w, hw, hwh⟩ := horig ow how0
        by_cases hco : s0.current ≠ ow
        · rw [if_pos hco]
          unfold hasCurrent switchTo closeCurrent
          apply List.find?_isSome.mpr
          refine ⟨w, ?_, ?_⟩
          · apply List.mem_filter.mpr
            refine ⟨hw, ?_⟩
            have hne : w.handle ≠ s0.current := by
              rw [hwh]
              exact fun habs => hco habs.symm
            simpa using hne
          · simp [hwh]
        · rw [if_neg hco]
          unfold hasCurrent switchTo
          apply List.find?_isSome.mpr
          exact ⟨w, hw, by simp [hwh]⟩
  · have hstate : step_5_window_phase s0 target = s0 := by
      unfold step_5_window_phase
      rw [if_neg hlen]
    rw [hstate]
    exact hcur

/-- C9: for every driver state in which the Applying step can leave the
browser — any set of open windows, any current tab, any stored original
window that is still open — running the Returning step
(`step_5_loop_return` with the stored checkpoint URL) leaves the
controller's effective URL equal to the stored checkpoint URL, whether
the apply attempt succeeded or failed (the apply outcome only varies the
entry state `s0`) and whether or not the results-page verification
succeeds.  The returned record reports `ready_for_next = True` with
`current_url` equal to the checkpoint. -/
theorem returning_restores_checkpoint_url (s0 : DriverState) (checkpoint : String)
    (verifyOk : Bool)
    (hcur : ∃ w ∈ s0.windows, w.handle = s0.current)
    (horig : ∀ ow, s0.original_window = some ow → ∃ w ∈ s0.windows, w.handle = ow) :
    currentUrl (step_5_loop_return s0 checkpoint verifyOk).1 = checkpoint ∧
    (step_5_loop_return s0 checkpoint verifyOk).2.ready_for_next = true ∧
    (step_5_loop_return s0 checkpoint verifyOk).2.current_url = checkpoint := by
  have h0 : hasCurrent s0 := by
    unfold hasCurrent
    apply List.find?_isSome.mpr
    obtain ⟨w, hw, he⟩ := hcur
    exact ⟨w, hw, by simpa using he⟩
  have h1 : hasCurrent (step_5_window_phase s0 checkpoint) :=
    hasCurrent_window_phase s0 checkpoint h0 horig
  have hurl2 : currentUrl (if currentUrl (step_5_window_phase s0 checkpoint) = checkpoint
      then step_5_window_phase s0 checkpoint
      else navGet (step_5_window_phase s0 checkpoint) checkpoint) = checkpoint := by
    by_cases hc : currentUrl (step_5_window_phase s0 checkpoint) = checkpoint
    · rw [if_pos hc]
      exact hc
    · rw [if_neg hc]
      exact currentUrl_navGet _ _ h1
  have h2 : hasCurrent (if currentUrl (step_5_window_phase s0 checkpoint) = checkpoint
      then step_5_window_phase s0 checkpoint
      else navGet (step_5_window_phase s0 checkpoint) checkpoint) := by
    by_cases hc : currentUrl (step_5_window_phase s0 checkpoint) = checkpoint
    · rw [if_pos hc]
      exact h1
    · rw [if_neg hc]
      exact hasCurrent_navGet _ _ h1
  cases verifyOk with
  | true =>
      have he : step_5_loop_return s0 checkpoint true =
          (if currentUrl (step_5_window_phase s0 checkpoint) = checkpoint
            then step_5_window_phase s0 checkpoint
            else navGet (step_5_window_phase s0 checkpoint) checkpoint,
          { ready_for_next := true,
            current_url := currentUrl (if currentUrl (step_5_window_phase s0 checkpoint) = checkpoint
              then step_5_window_phase s0 checkpoint
              else navGet (step_5_window_phase s0 checkpoint) checkpoint) }) := rfl
      rw [he]
      exact ⟨hurl2, rfl, hurl2⟩
  | false =>
      have he : step_5_loop_return s0 checkpoint false =
          (navGet (if currentUrl (step_5_window_phase s0 checkpoint) = checkpoint
              then step_5_window_phase s0 checkpoint
              else navGet (step_5_window_phase s0 checkpoint) checkpoint) checkpoint,
          { ready_for_next := true,
            current_url := currentUrl (navGet
              (if currentUrl (step_5_window_phase s0 checkpoint) = checkpoint
                then step_5_window_phase s0 checkpoint
                else navGet (step_5_window_phase s0 checkpoint) checkpoint) checkpoint),
            error := some "Failed to verify return to results page" }) := rfl
      rw [he]
      have h3 := currentUrl_navGet _ checkpoint h2
      exact ⟨h3, rfl, h3⟩

/-- Witness for C9: the apply attempt opened a second tab and left the
driver on it; the original window is stored. -/
theorem returning_restores_checkpoint_url_witness :
    ((∃ w ∈ ([⟨0, "https://www.dice.com/jobs?filters.easyApply=true"⟩,
        ⟨1, "https://www.dice.com/job-detail/xyz"⟩] : List BrowserWindow), w.handle = 1) ∧
      (∀ ow, (some 0 : Option Nat) = some ow →
        ∃ w ∈ ([⟨0, "https://www.dice.com/jobs?filters.easyApply=true"⟩,
          ⟨1, "https://www.dice.com/job-detail/xyz"⟩] : List BrowserWindow), w.handle = ow)) ∧
    (currentUrl (step_5_loop_return
        ⟨[⟨0, "https://www.dice.com/jobs?filters.easyApply=true"⟩,
          ⟨1, "https://www.dice.com/job-detail/xyz"⟩], 1, some 0⟩
        "https://www.dice.com/jobs?filters.easyApply=true&q=engineer" false).1 =
      "https://www.dice.com/jobs?filters.easyApply=true&q=engineer" ∧
      (step_5_loop_return
        ⟨[⟨0, "https://www.dice.com/jobs?filters.easyApply=true"⟩,
          ⟨1, "https://www.dice.com/job-detail/xyz"⟩], 1, some 0⟩
        "https://www.dice.com/jobs?filters.easyApply=true&q=engineer" false).2.ready_for_next =
        true ∧
      (step_5_loop_return
        ⟨[⟨0, "https://www.dice.com/jobs?filters.easyApply=true"⟩,
          ⟨1, "https://www.dice.com/job-detail/xyz"⟩], 1, some 0⟩
        "https://www.dice.com/jobs?filters.easyApply=true&q=engineer" false).2.current_url =
      "https://www.dice.com/jobs?filters.easyApply=true&q=engineer") :=
  ⟨⟨⟨⟨1, "https://www.dice.com/job-detail/xyz"⟩, by decide, rfl⟩,
      fun ow how => ⟨⟨0, "https://www.dice.com/jobs?filters.easyApply=true"⟩, by decide,
        by cases how; rfl⟩⟩,
    returning_restores_checkpoint_url
      ⟨[⟨0, "https://www.dice.com/jobs?filters.easyApply=true"⟩,
        ⟨1, "https://www.dice.com/job-detail/xyz"⟩], 1, some 0⟩
      "https://www.dice.com/jobs?filters.easyApply=true&q=engineer" false
      ⟨⟨1, "https://www.dice.com/job-detail/xyz"⟩, by decide, rfl⟩
      (fun ow how => ⟨⟨0, "https://www.dice.com/jobs?filters.easyApply=true"⟩, by decide,
        by cases how; rfl⟩)⟩

/-! ## Application loop and run orchestration (dice-assistant.py)

`_apply_to_jobs` iterates the catalog and runs steps 4, 8, 9, 10 for
each index; the outcome of those steps for index `i` is modelled by
`outcomes i`.  `run_automation` validates the job title, logs in, walks
the navigation tiers, and wraps the loop result. -/

structure JobOutcome where
  step4 : Bool
  step8 : Bool
  step9 : Bool
  step10 : Bool
deriving DecidableEq, Repr

def jobSucceeds (o : JobOutcome) : Bool :=
  o.step4 && o.step8 && o.step9 && o.step10

structure AppliedJob where
  title : String
  index : Nat
deriving DecidableEq, Repr

structure ApplyJobsResult where
  success : Bool
  applications : Nat
  applied_jobs : List AppliedJob
deriving DecidableEq, Repr

/-- One iteration of the `for job_index in range(total_jobs)` loop of
`_apply_to_jobs` (dice-assistant.py lines 254-320): an index counts and
is appended to `applied_jobs` exactly when step 4 selected the job and
steps 8, 9 and 10 all succeeded. -/
def applyLoopStep (outcomes : Nat → JobOutcome) (st : Nat × List AppliedJob) (i : Nat) :
    Nat × List AppliedJob :=
  if jobSucceeds (outcomes i) then
    (st.1 + 1, st.2 ++ [{ title := s!"Job #{i + 1}", index := i }])
  else
    st

/-- `_apply_to_jobs` (dice-assistant.py lines 229-331): catalog the page;
with zero jobs return `{'success': False, 'applications': 0,
'applied_jobs': []}`; otherwise loop over every index and finally report
`success = applications_completed > 0`. -/
def apply_to_jobs (total_jobs : Nat) (outcomes : Nat → JobOutcome) : ApplyJobsResult :=
  if total_jobs = 0 then
    { success := false, applications := 0, applied_jobs := [] }
  else
    let r := (List.range total_jobs).foldl (applyLoopStep outcomes) (0, [])
    { success := decide (0 < r.1), applications := r.1, applied_jobs := r.2 }

/-- The tier chain of `run_automation` (dice-assistant.py lines 388-398):
`if self._tier1_optimization(driver): ... elif self._tier2_fallback(driver):
... elif self._tier3_full_fallback(driver): ... else: failure`.  Returns
the list of tiers attempted (in order) and the tier recorded as
`tier_used`. -/
def navigateTiers (t1 t2 t3 : Bool) : List Nat × Option Nat :=
  if t1 then ([1], some 1)
  else if t2 then ([1, 2], some 2)
  else if t3 then ([1, 2, 3], some 3)
  else ([1, 2, 3], none)

structure RunResult where
  success : Bool
  error : Option String := none
  tier_used : Option Nat := none
  total_applications : Nat := 0
  applied_jobs : List AppliedJob := []
deriving DecidableEq, Repr

/-- `run_automation` (dice-assistant.py lines 333-431): require a
non-empty job title (`jobTitle` is the title after the source's
`.strip()`), require login to succeed, walk the tier chain, and on
reaching a job page run `_apply_to_jobs` and return success
unconditionally with its counts (the loop result's own `success` flag is
not consulted). -/
def run_automation (jobTitle : String) (loginOk : Bool) (t1 t2 t3 : Bool)
    (total_jobs : Nat) (outcomes : Nat → JobOutcome) : RunResult :=
  if jobTitle = "" then
    { success := false, error := some "No job title provided" }
  else if !loginOk then
    { success := false, error := some "Login failed" }
  else
    match (navigateTiers t1 t2 t3).2 with
    | none => { success := false, error := some "Failed to reach job page" }
    | some t =>
        let r := apply_to_jobs total_jobs outcomes
        { success := true, tier_used := some t,
          total_applications := r.applications, applied_jobs := r.applied_jobs }

theorem run_automation_reaches (title : String) (login : Bool) (t1 t2 t3 : Bool)
    (tj : Nat) (oc : Nat → JobOutcome)
    (htitle : title ≠ "") (hlogin : login = true)
    (ht : t1 = true ∨ t2 = true ∨ t3 = true) :
    run_automation title login t1 t2 t3 tj oc =
      { success := true, tier_used := (navigateTiers t1 t2 t3).2,
        total_applications := (apply_to_jobs tj oc).applications,
        applied_jobs := (apply_to_jobs tj oc).applied_jobs } := by
  subst hlogin
  unfold run_automation
  rw [if_neg htitle]
  cases t1 <;> cases t2 <;> cases t3 <;> simp [navigateTiers]
  all_goals tauto

/-- C4: the navigation tier strategy is strictly ordered and
short-circuits.  Tier 1 is always attempted first; Tier 2 is attempted
iff Tier 1 fails; Tier 3 is attempted iff Tiers 1 and 2 both fail; the
recorded `tier_used` is the first tier that succeeds and no tier after
it is attempted; and when all three tiers fail, `run_automation`
returns `{'success': False, 'error': 'Failed to reach job page'}`. -/
theorem tier_strategy_strictly_ordered (t1 t2 t3 : Bool) (title : String) (login : Bool)
    (tj : Nat) (oc : Nat → JobOutcome)
    (htitle : title ≠ "") (hlogin : login = true) :
    (navigateTiers t1 t2 t3).1.head? = some 1 ∧
    (2 ∈ (navigateTiers t1 t2 t3).1 ↔ t1 = false) ∧
    (3 ∈ (navigateTiers t1 t2 t3).1 ↔ t1 = false ∧ t2 = false) ∧
    (navigateTiers t1 t2 t3).2 =
      (if t1 then some 1 else if t2 then some 2 else if t3 then some 3 else none) ∧
    (∀ u, (navigateTiers t1 t2 t3).2 = some u → ∀ a ∈ (navigateTiers t1 t2 t3).1, a ≤ u) ∧
    (t1 = false → t2 = false → t3 = false →
      run_automation title login t1 t2 t3 tj oc =
        { success := false, error := some "Failed to reach job page" }) := by
  subst hlogin
  refine ⟨?_, ?_, ?_, ?_, ?_, ?_⟩
  · cases t1 <;> cases t2 <;> cases t3 <;> simp [navigateTiers]
  · cases t1 <;> cases t2 <;> cases t3 <;> simp [navigateTiers]
  · cases t1 <;> cases t2 <;> cases t3 <;> simp [navigateTiers]
  · cases t1 <;> cases t2 <;> cases t3 <;> simp [navigateTiers]
  · cases t1 <;> cases t2 <;> cases t3 <;> simp [navigateTiers]
  · rintro rfl rfl rfl
    unfold run_automation
    rw [if_neg htitle]
    simp [navigateTiers]

/-- Witness for C4: Tier 1 fails, Tier 2 succeeds. -/
theorem tier_strategy_strictly_ordered_witness :
    (("Engineer" : String) ≠ "" ∧ (true : Bool) = true) ∧
    ((navigateTiers false true true).1.head? = some 1 ∧
      (2 ∈ (navigateTiers false true true).1 ↔ false = false) ∧
      (3 ∈ (navigateTiers false true true).1 ↔ false = false ∧ true = false) ∧
      (navigateTiers false true true).2 =
        (if false then some 1 else if true then some 2 else if true then some 3 else none) ∧
      (∀ u, (navigateTiers false true true).2 = some u →
        ∀ a ∈ (navigateTiers false true true).1, a ≤ u) ∧
      (false = false → true = false → true = false →
        run_automation "Engineer" true false true true 4 (fun _ => ⟨true, true, true, true⟩) =
          { success := false, error := some "Failed to reach job page" })) :=
  ⟨⟨by decide, rfl⟩,
    tier_strategy_strictly_ordered false true true "Engineer" true 4
      (fun _ => ⟨true, true, true, true⟩) (by decide) rfl⟩

/-- C2 counterexample: with a valid title, successful login, a reachable
job page, and zero listings catalogued, `run_automation` returns
`success = True` (not `False` as the claim states): line 410-419 of
dice-assistant.py builds the run result with `'success': True`
unconditionally, discarding the `success = False` computed by
`_apply_to_jobs`. -/
theorem zero_listings_run_success_counterexample :
    (run_automation "Engineer" true true false false 0
        (fun _ => ⟨false, false, false, false⟩)).success = true ∧
    (run_automation "Engineer" true true false false 0
        (fun _ => ⟨false, false, false, false⟩)).total_applications = 0 ∧
    apply_to_jobs 0 (fun _ => ⟨false, false, false, false⟩) =
      { success := false, applications := 0, applied_jobs := [] } := by
  refine ⟨rfl, rfl, rfl⟩

/-- C2 (amended): when cataloging finds zero listings, the run returns a
structured result with `total_applications = 0` and no exception is
raised; the application-loop result `_apply_to_jobs` reports
`success = False` with zero applications, but `run_automation` wraps it
with `success = True` (it reflects navigation success, not the
application count). -/
theorem zero_listings_structured_result (title : String) (login : Bool) (t1 t2 t3 : Bool)
    (oc : Nat → JobOutcome)
    (htitle : title ≠ "") (hlogin : login = true)
    (ht : t1 = true ∨ t2 = true ∨ t3 = true) :
    apply_to_jobs 0 oc = { success := false, applications := 0, applied_jobs := [] } ∧
    (run_automation title login t1 t2 t3 0 oc).total_applications = 0 ∧
    (run_automation title login t1 t2 t3 0 oc).applied_jobs = [] ∧
    (run_automation title login t1 t2 t3 0 oc).success = true := by
  have happ : apply_to_jobs 0 oc =
      { success := false, applications := 0, applied_jobs := [] } := rfl
  have hrun := run_automation_reaches title login t1 t2 t3 0 oc htitle hlogin ht
  refine ⟨happ, ?_, ?_, ?_⟩ <;> rw [hrun] <;> simp [happ]

/-- Witness for C2 (amended) at a concrete zero-listing run. -/
theorem zero_listings_structured_result_witness :
    (("Engineer" : String) ≠ "" ∧ (true : Bool) = true ∧
      (true = true ∨ false = true ∨ false = true)) ∧
    (apply_to_jobs 0 (fun _ => ⟨true, true, true, true⟩) =
        { success := false, applications := 0, applied_jobs := [] } ∧
      (run_automation "Engineer" true true false false 0
          (fun _ => ⟨true, true, true, true⟩)).total_applications = 0 ∧
      (run_automation "Engineer" true true false false 0
          (fun _ => ⟨true, true, true, true⟩)).applied_jobs = [] ∧
      (run_automation "Engineer" true true false false 0
          (fun _ => ⟨true, true, true, true⟩)).success = true) :=
  ⟨⟨by decide, rfl, Or.inl rfl⟩,
    zero_listings_structured_result "Engineer" true true false false
      (fun _ => ⟨true, true, true, true⟩) (by decide) rfl (Or.inl rfl)⟩

/-- C3: a failure while applying to one catalog entry never aborts the
run.  For a catalog of 3 entries where entry 0 succeeds, entry 1 fails
at some apply step, and entry 2 succeeds, the loop still reaches entry 2
(after entry 1's failure), reports `total_applications = 2` with
`applied_jobs` holding entries 0 and 2, the loop result has
`success = True` (at least one application succeeded), and the run
reports `success = True`. -/
theorem partial_failure_does_not_abort (oc : Nat → JobOutcome)
    (h0 : jobSucceeds (oc 0) = true)
    (h1 : jobSucceeds (oc 1) = false)
    (h2 : jobSucceeds (oc 2) = true)
    (title : String) (login : Bool) (t1 t2 t3 : Bool)
    (htitle : title ≠ "") (hlogin : login = true)
    (ht : t1 = true ∨ t2 = true ∨ t3 = true) :
    (apply_to_jobs 3 oc).applications = 2 ∧
    (apply_to_jobs 3 oc).applied_jobs.map (fun j => j.index) = [0, 2] ∧
    (apply_to_jobs 3 oc).success = true ∧
    (run_automation title login t1 t2 t3 3 oc).success = true ∧
    (run_automation title login t1 t2 t3 3 oc).total_applications = 2 := by
  have hr : List.range 3 = [0, 1, 2] := rfl
  have happ : apply_to_jobs 3 oc =
      { success := true, applications := 2,
        applied_jobs := [{ title := "Job #1", index := 0 }, { title := "Job #3", index := 2 }] } := by
    unfold apply_to_jobs
    rw [if_neg (by norm_num)]
    rw [hr]
    simp only [List.foldl_cons, List.foldl_nil]
    unfold applyLoopStep
    simp only [h0, h1, h2, if_true, if_false]
    rfl
  have hrun := run_automation_reaches title login t1 t2 t3 3 oc htitle hlogin ht
  refine ⟨?_, ?_, ?_, ?_, ?_⟩
  · rw [happ]
  · rw [happ]
    simp
  · rw [happ]
  · rw [hrun]
  · rw [hrun]
    simp [happ]

/-- Witness for C3: concrete outcomes where entry 1's step-8 apply click
fails. -/
theorem partial_failure_does_not_abort_witness :
    (jobSucceeds ⟨true, true, true, true⟩ = true ∧
      jobSucceeds ⟨true, false, true, true⟩ = false) ∧
    ((apply_to_jobs 3 (fun i => if i = 1 then ⟨true, false, true, true⟩
        else ⟨true, true, true, true⟩)).applications = 2 ∧
      (apply_to_jobs 3 (fun i => if i = 1 then ⟨true, false, true, true⟩
        else ⟨true, true, true, true⟩)).applied_jobs.map (fun j => j.index) = [0, 2] ∧
      (apply_to_jobs 3 (fun i => if i = 1 then ⟨true, false, true, true⟩
        else ⟨true, true, true, true⟩)).success = true ∧
      (run_automation "Engineer" true true false false 3
        (fun i => if i = 1 then ⟨true, false, true, true⟩
          else ⟨true, true, true, true⟩)).success = true ∧
      (run_automation "Engineer" true true false false 3
        (fun i => if i = 1 then ⟨true, false, true, true⟩
          else ⟨true, true, true, true⟩)).total_applications = 2) :=
  ⟨⟨rfl, rfl⟩,
    partial_failure_does_not_abort
      (fun i => if i = 1 then ⟨true, false, true, true⟩ else ⟨true, true, true, true⟩)
      rfl rfl rfl "Engineer" true true false false (by decide) rfl (Or.inl rfl)⟩

/-! ## Form filling (job_board_assistant/website_automation/aps_automation.py)

`_fill_job_candidate_form` fills five fields plus an optional resume
upload; each per-field attempt either succeeds (the key enters the
`filled_fields` dict) or not.  The decision at lines 260-268 is taken on
the dict keys. -/

/-- `_fill_job_candidate_form` (aps_automation.py lines 147-272): build
`filled_fields` from the per-field outcomes, honour the stop callback,
and accept the fill when at most one of the required fields
`['first_name', 'last_name', 'email', 'phone']` is missing
(`return len(missing) <= 1`). -/
def fill_job_candidate_form (stopRequested firstOk lastOk emailOk phoneOk jobTypeOk
    resumeOk : Bool) : Bool :=
  let filled_fields : List String :=
    (if firstOk then ["first_name"] else []) ++
    (if lastOk then ["last_name"] else []) ++
    (if emailOk then ["email"] else []) ++
    (if phoneOk then ["phone"] else []) ++
    (if jobTypeOk then ["job_type"] else []) ++
    (if resumeOk then ["resume"] else [])
  if stopRequested then false
  else
    let required := ["first_name", "last_name", "email", "phone"]
    let missing := required.filter (fun f => !(filled_fields.contains f))
    if !missing.isEmpty then decide (missing.length ≤ 1) else true

/-- Number of required roles (out of the source's four) whose fill
attempt failed. -/
def missingRequiredCount (firstOk lastOk emailOk phoneOk : Bool) : Nat :=
  (if firstOk then 0 else 1) + (if lastOk then 0 else 1) +
    (if emailOk then 0 else 1) + (if phoneOk then 0 else 1)

/-- C5: form filling tolerates exactly one flaky required field.  With
the source's required-role set of size 4, the fill reports overall
success when all required roles are filled or exactly one is missing
(3 of 4 filled), and reports failure as soon as two or more required
roles are missing — independently of the optional job-type and resume
outcomes and for any stop-flag value of `false`. -/
theorem fill_tolerates_one_flaky_required_field
    (firstOk lastOk emailOk phoneOk jobTypeOk resumeOk : Bool) :
    (missingRequiredCount firstOk lastOk emailOk phoneOk ≤ 1 →
      fill_job_candidate_form false firstOk lastOk emailOk phoneOk jobTypeOk resumeOk = true) ∧
    (2 ≤ missingRequiredCount firstOk lastOk emailOk phoneOk →
      fill_job_candidate_form false firstOk lastOk emailOk phoneOk jobTypeOk resumeOk = false) := by
  cases firstOk <;> cases lastOk <;> cases emailOk <;> cases phoneOk <;>
    cases jobTypeOk <;> cases resumeOk <;> decide

/-- Witness for C5: phone is the one flaky required field (success);
first and last name both missing (failure). -/
theorem fill_tolerates_one_flaky_required_field_witness :
    (missingRequiredCount true true true false ≤ 1 ∧
      fill_job_candidate_form false true true true false true false = true) ∧
    (2 ≤ missingRequiredCount false false true true ∧
      fill_job_candidate_form false false false true true true false = false) :=
  ⟨⟨by decide,
      (fill_tolerates_one_flaky_required_field true true true false true false).1 (by decide)⟩,
    ⟨by decide,
      (fill_tolerates_one_flaky_required_field false false true true true false).2 (by decide)⟩⟩

/-! ## Element resolver for form fields
(aps_automation.py `_fill_field_by_multiple_strategies`)

One locator strategy per list entry: either locating raised (timeout,
missing element, or any other exception — all caught and skipped), or a
candidate element was found with the given visibility/enabled state and
the given value readback after `clear()` + `send_keys(value)`. -/

inductive FieldProbe
  | raises
  | found (displayed enabled : Bool) (valueAfterFill : String)
deriving DecidableEq, Repr

/-- A probe on which the source returns True: a candidate that is
present, visible, enabled, and whose injected value reads back
non-empty. -/
def isGoodProbe : FieldProbe → Bool
  | .raises => false
  | .found d e v => d && e && (v != "")

/-- The strategy loop of `_fill_field_by_multiple_strategies`
(aps_automation.py lines 286-316): strategies strictly in order; a
raising strategy is skipped (never retried); a found candidate is used
only if visible and enabled and its readback is non-empty; exhaustion
returns False. -/
def fill_field_loop : List FieldProbe → Bool
  | [] => false
  | .raises :: rest => fill_field_loop rest
  | .found d e v :: rest =>
      if d && e then
        if v != "" then true else fill_field_loop rest
      else
        fill_field_loop rest

/-- `_fill_field_by_multiple_strategies` (aps_automation.py lines
274-316): an empty value short-circuits to False (`if not value`),
otherwise the strategy loop runs. -/
def fill_field_by_multiple_strategies (value : String) (sels : List FieldProbe) : Bool :=
  if value = "" then false else fill_field_loop sels

theorem fill_field_loop_eq_any (sels : List FieldProbe) :
    fill_field_loop sels = sels.any isGoodProbe := by
  induction sels with
  | nil => rfl
  | cons p rest ih =>
      cases p with
      | raises => simp [fill_field_loop, isGoodProbe, ih]
      | found d e v =>
          simp only [fill_field_loop, List.any_cons, isGoodProbe]
          by_cases hd : (d && e) = true
          · rw [if_pos hd]
            by_cases hv : (v != "") = true
            · simp [hd, hv]
            · have hv' : (v != "") = false := by simpa using hv
              simp [hd, hv', ih]
          · have hd' : (d && e) = false := by simpa using hd
            rw [if_neg (by simp [hd'])]
            simp [hd', ih]

/-- C6 counterexample: the claim "the resolver returns the first
candidate that is present, visible, and enabled" is false: for the
non-empty value `"555-1234"` and a single strategy whose candidate is
present, visible and enabled but whose injected value reads back empty
(`if entered_value:` fails), `_fill_field_by_multiple_strategies`
reports failure instead of returning that candidate. -/
theorem resolver_first_visible_enabled_counterexample :
    ¬ (∀ (value : String) (sels : List FieldProbe),
        value ≠ "" →
        (∃ d e v, FieldProbe.found d e v ∈ sels ∧ d = true ∧ e = true) →
        fill_field_by_multiple_strategies value sels = true) := by
  intro h
  have hfalse := h "555-1234" [FieldProbe.found true true ""] (by decide)
    ⟨true, true, "", by decide, rfl, rfl⟩
  have : fill_field_by_multiple_strategies "555-1234" [FieldProbe.found true true ""] = false := by
    decide
  rw [hfalse] at this
  exact Bool.noConfusion this

/-! ### The submit-button resolver (dice_step_10.py `_find_submit_button`)

A candidate button carries its `is_displayed()` / `is_enabled()` state
and the outcomes of the text inspections the source performs on it:
`'submit' in button.text.strip().lower()`, `'submit'` in a span's text,
exact equality with `'submit'` (strategy 4 uses equality where strategy
1 uses containment), and presence of the `btn-next` class. -/

structure ButtonCand where
  displayed : Bool
  enabled : Bool
  submitInText : Bool
  submitInSpan : Bool
  textEqSubmit : Bool
  spanEqSubmit : Bool
  btnNextClass : Bool
deriving DecidableEq, Repr

/-- One CSS selector of strategy 1: a `:contains` selector (skipped by
the `if ':contains' in selector: continue` guard), a raising lookup, or
a list of candidate buttons. -/
inductive CssProbe
  | skipContains
  | raises
  | found (buttons : List ButtonCand)
deriving DecidableEq, Repr

/-- One XPath selector of strategy 2: a raising lookup or a list of
candidate buttons. -/
inductive XPathProbe
  | raises
  | found (buttons : List ButtonCand)
deriving DecidableEq, Repr

/-- Strategy-1 acceptance (dice_step_10.py lines 152-172): displayed and
enabled, with 'submit' in the button text, 'submit' in a span inside
it, or the `btn-next` class while the page verifies as the review
page. -/
def cssAccept (onReviewPage : Bool) (b : ButtonCand) : Bool :=
  b.displayed && b.enabled &&
    (b.submitInText || b.submitInSpan || (b.btnNextClass && onReviewPage))

/-- Strategy-2 acceptance (lines 190-198): displayed and enabled (the
XPath pattern itself selects Submit-text buttons). -/
def xpathAccept (b : ButtonCand) : Bool :=
  b.displayed && b.enabled

/-- Strategy-4 acceptance (lines 212-233): displayed and enabled with
the button text or a span text exactly equal to 'submit'. -/
def allAccept (b : ButtonCand) : Bool :=
  b.displayed && b.enabled && (b.textEqSubmit || b.spanEqSubmit)

def submit_css_loop (onReviewPage : Bool) : List CssProbe → Option ButtonCand
  | [] => none
  | .skipContains :: rest => submit_css_loop onReviewPage rest
  | .raises :: rest => submit_css_loop onReviewPage rest
  | .found bs :: rest =>
      match bs.find? (cssAccept onReviewPage) with
      | some b => some b
      | none => submit_css_loop onReviewPage rest

def submit_xpath_loop : List XPathProbe → Option ButtonCand
  | [] => none
  | .raises :: rest => submit_xpath_loop rest
  | .found bs :: rest =>
      match bs.find? xpathAccept with
      | some b => some b
      | none => submit_xpath_loop rest

/-- `_find_submit_button` (dice_step_10.py lines 120-236): strategy 1
(CSS selectors in order, `:contains` and raising ones skipped), then
strategy 2 (XPath selectors in order, raising ones skipped), then
strategy 3 (a WebDriverWait that either yields a clickable Submit
button or times out, modelled by `waitResult`), then strategy 4
(scanning all buttons; `allButtons = none` models a raise in that scan,
caught by its `except: pass`); after every strategy is exhausted the
function returns `None`. -/
def find_submit_button (css : List CssProbe) (xpaths : List XPathProbe)
    (waitResult : Option ButtonCand) (allButtons : Option (List ButtonCand))
    (onReviewPage : Bool) : Option ButtonCand :=
  match submit_css_loop onReviewPage css with
  | some b => some b
  | none =>
      match submit_xpath_loop xpaths with
      | some b => some b
      | none =>
          match waitResult with
          | some b => some b
          | none =>
              match allButtons with
              | none => none
              | some bs => bs.find? allAccept

/-- The accepted candidates of every strategy of `_find_submit_button`,
in evaluation order; raising and `:contains` strategies contribute
nothing. -/
def submitCandidates (css : List CssProbe) (xpaths : List XPathProbe)
    (waitResult : Option ButtonCand) (allButtons : Option (List ButtonCand))
    (onReviewPage : Bool) : List ButtonCand :=
  css.flatMap (fun pr => match pr with
    | .skipContains => []
    | .raises => []
    | .found bs => bs.filter (cssAccept onReviewPage)) ++
  xpaths.flatMap (fun pr => match pr with
    | .raises => []
    | .found bs => bs.filter xpathAccept) ++
  waitResult.toList ++
  (match allButtons with
    | none => []
    | some bs => bs.filter allAccept)

theorem find?_eq_filter_head? {α : Type} (p : α → Bool) (l : List α) :
    l.find? p = (l.filter p).head? := by
  induction l with
  | nil => rfl
  | cons a l ih =>
      by_cases h : p a = true
      · rw [List.find?_cons_of_pos _ h, List.filter_cons_of_pos h]
        rfl
      · rw [List.find?_cons_of_neg _ h, List.filter_cons_of_neg h]
        exact ih

theorem submit_css_loop_eq (onReviewPage : Bool) (css : List CssProbe) :
    submit_css_loop onReviewPage css =
      (css.flatMap (fun pr => match pr with
        | .skipContains => []
        | .raises => []
        | .found bs => bs.filter (cssAccept onReviewPage))).head? := by
  induction css with
  | nil => rfl
  | cons pr rest ih =>
      cases pr with
      | skipContains => simpa [submit_css_loop] using ih
      | raises => simpa [submit_css_loop] using ih
      | found bs =>
          show (match bs.find? (cssAccept onReviewPage) with
            | some b => some b
            | none => submit_css_loop onReviewPage rest) = _
          rw [find?_eq_filter_head?]
          cases hf : bs.filter (cssAccept onReviewPage) with
          | nil =>
              simp only [hf, List.head?_nil]
              rw [ih]
              simp [hf]
          | cons b bs' => simp [hf]

theorem submit_xpath_loop_eq (xpaths : List XPathProbe) :
    submit_xpath_loop xpaths =
      (xpaths.flatMap (fun pr => match pr with
        | .raises => []
        | .found bs => bs.filter xpathAccept)).head? := by
  induction xpaths with
  | nil => rfl
  | cons pr rest ih =>
      cases pr with
      | raises => simpa [submit_xpath_loop] using ih
      | found bs =>
          show (match bs.find? xpathAccept with
            | some b => some b
            | none => submit_xpath_loop rest) = _
          rw [find?_eq_filter_head?]
          cases hf : bs.filter xpathAccept with
          | nil =>
              simp only [hf, List.head?_nil]
              rw [ih]
              simp [hf]
          | cons b bs' => simp [hf]

theorem find_submit_button_eq_head (css : List CssProbe) (xpaths : List XPathProbe)
    (waitResult : Option ButtonCand) (allButtons : Option (List ButtonCand))
    (onReviewPage : Bool) :
    find_submit_button css xpaths waitResult allButtons onReviewPage =
      (submitCandidates css xpaths waitResult allButtons onReviewPage).head? := by
  unfold find_submit_button submitCandidates
  rw [submit_css_loop_eq, submit_xpath_loop_eq]
  rw [List.head?_append, List.head?_append, List.head?_append]
  cases hA : (css.flatMap (fun pr => match pr with
      | CssProbe.skipContains => []
      | CssProbe.raises => []
      | CssProbe.found bs => bs.filter (cssAccept onReviewPage))).head? with
  | some b => simp [hA]
  | none =>
      simp only [hA, Option.none_or]
      cases hB : (xpaths.flatMap (fun pr => match pr with
          | XPathProbe.raises => []
          | XPathProbe.found bs => bs.filter xpathAccept)).head? with
      | some b => simp [hB]
      | none =>
          simp only [hB, Option.none_or]
          cases waitResult with
          | some b => simp
          | none =>
              simp only [Option.toList, List.head?_nil, Option.none_or]
              cases allButtons with
              | none => rfl
              | some bs =>
                  show bs.find? allAccept = (bs.filter allAccept).head?
                  exact find?_eq_filter_head? allAccept bs

/-- C6 (amended): each of the two cited element resolvers evaluates its
locator strategies strictly in the listed order and returns the first
candidate that is present, visible, enabled, and passes the resolver's
acceptance check on that candidate — for `_fill_field_by_multiple_strategies`
the check is that the injected value reads back non-empty; for
`_find_submit_button` it is the Submit-text test of the strategy that
found the candidate ('submit' contained in its text or a span, the
`btn-next`-on-review-page fallback, exact 'submit' equality in the final
scan, or clickability for the WebDriverWait strategy).  A strategy that
raises (and a `:contains` CSS selector) is skipped, never retried, and
the next strategy is tried; when every strategy is exhausted each
resolver returns its not-found value — `False` for the field filler,
`None` for the submit-button finder — rather than raising: both
embeddings are total functions whose result is the head of the ordered
list of accepted candidates. -/
theorem resolver_strictly_ordered (value : String) (sels : List FieldProbe)
    (css : List CssProbe) (xpaths : List XPathProbe) (waitResult : Option ButtonCand)
    (allButtons : Option (List ButtonCand)) (onReviewPage : Bool) :
    fill_field_by_multiple_strategies value sels =
      (decide (value ≠ "") && sels.any isGoodProbe) ∧
    (∀ pre rest, sels = pre ++ rest → (∀ p ∈ pre, isGoodProbe p = false) →
      fill_field_by_multiple_strategies value sels =
        fill_field_by_multiple_strategies value rest) ∧
    find_submit_button css xpaths waitResult allButtons onReviewPage =
      (submitCandidates css xpaths waitResult allButtons onReviewPage).head? := by
  refine ⟨?_, ?_, find_submit_button_eq_head css xpaths waitResult allButtons onReviewPage⟩
  · unfold fill_field_by_multiple_strategies
    by_cases hv : value = ""
    · simp [hv]
    · simp [hv, fill_field_loop_eq_any]
  · intro pre rest hsplit hbad
    unfold fill_field_by_multiple_strategies
    by_cases hv : value = ""
    · simp [hv]
    · rw [if_neg hv, if_neg hv, hsplit, fill_field_loop_eq_any, fill_field_loop_eq_any,
        List.any_append]
      have hpre : pre.any isGoodProbe = false := by
        apply List.any_eq_false.mpr
        intro p hp
        simp [hbad p hp]
      rw [hpre]
      simp

/-- Witness for C6 (amended): for the field filler, a raising strategy
followed by a good candidate; for the submit-button finder, a skipped
`:contains` selector, a raising selector, and a selector whose second
button is the first accepted candidate. -/
theorem resolver_strictly_ordered_witness :
    (fill_field_by_multiple_strategies "555-1234"
        [FieldProbe.raises, FieldProbe.found true true "555-1234"] =
      (decide (("555-1234" : String) ≠ "") &&
        [FieldProbe.raises, FieldProbe.found true true "555-1234"].any isGoodProbe)) ∧
    ([FieldProbe.raises, FieldProbe.found true true "555-1234"] =
        [FieldProbe.raises] ++ [FieldProbe.found true true "555-1234"] ∧
      (∀ p ∈ [FieldProbe.raises], isGoodProbe p = false) ∧
      fill_field_by_multiple_strategies "555-1234"
          [FieldProbe.raises, FieldProbe.found true true "555-1234"] =
        fill_field_by_multiple_strategies "555-1234" [FieldProbe.found true true "555-1234"]) ∧
    (find_submit_button
        [CssProbe.skipContains, CssProbe.raises,
          CssProbe.found [⟨false, true, true, false, false, false, false⟩,
            ⟨true, true, true, false, true, false, false⟩]]
        [XPathProbe.raises] none (some []) false =
      (submitCandidates
        [CssProbe.skipContains, CssProbe.raises,
          CssProbe.found [⟨false, true, true, false, false, false, false⟩,
            ⟨true, true, true, false, true, false, false⟩]]
        [XPathProbe.raises] none (some []) false).head? ∧
      (submitCandidates
        [CssProbe.skipContains, CssProbe.raises,
          CssProbe.found [⟨false, true, true, false, false, false, false⟩,
            ⟨true, true, true, false, true, false, false⟩]]
        [XPathProbe.raises] none (some []) false).head? =
        some ⟨true, true, true, false, true, false, false⟩) :=
  ⟨(resolver_strictly_ordered "555-1234"
      [FieldProbe.raises, FieldProbe.found true true "555-1234"]
      [] [] none none false).1,
    ⟨rfl, by decide,
      (resolver_strictly_ordered "555-1234"
          [FieldProbe.raises, FieldProbe.found true true "555-1234"]
          [] [] none none false).2.1
        [FieldProbe.raises] [FieldProbe.found true true "555-1234"] rfl (by decide)⟩,
    ⟨(resolver_strictly_ordered "555-1234" []
        [CssProbe.skipContains, CssProbe.raises,
          CssProbe.found [⟨false, true, true, false, false, false, false⟩,
            ⟨true, true, true, false, true, false, false⟩]]
        [XPathProbe.raises] none (some []) false).2.2,
      by decide⟩⟩

/-! ## Submission record store (application-assistant.py `ApplicationTracker`)

Randomness is modelled as an input: `r i` is the i-th of the six draws
of `random.choices(string.ascii_uppercase + string.digits, k=6)`, given
as an index into that 36-character alphabet.  The database is modelled
as the list of `(email, user_id)` rows of the `users` table plus the
auto-increment id the insert would return. -/

def refAlphabet : List Char := "ABCDEFGHIJKLMNOPQRSTUVWXYZ0123456789".data

/-- `ApplicationTracker.generate_simple_ref` (application-assistant.py
lines 68-74): `APP-{year}-{6 random uppercase letters / digits}`. -/
def generate_simple_ref (year : Nat) (r : Fin 6 → Fin 36) : String :=
  let chars := (List.finRange 6).map (fun i => refAlphabet.getD (r i).val 'A')
  "APP-" ++ toString year ++ "-" ++ String.mk chars

structure LogResult where
  success : Bool
  id : Option Nat := none
  reference : Option String := none
  error : Option String := none
deriving DecidableEq, Repr

structure AppRecord where
  user_id : Nat
  app_ref : String
  platform : String
  job_title : String
  company : String
  status : String
deriving DecidableEq, Repr

/-- `ApplicationTracker.log_application` (application-assistant.py lines
76-146): look the user up by email; when absent, report
`{'success': False, 'error': 'User not found'}` without inserting and
without raising; when present, insert one `application_stats` row with a
fresh reference (titles truncated to 255 characters, empty ones replaced
by `'Not Specified'`) and return `{'success': True, 'id', 'reference'}`. -/
def log_application (users : List (String × Nat)) (nextId : Nat) (year : Nat)
    (r : Fin 6 → Fin 36) (user_email platform job_title company status : String) :
    LogResult × Option AppRecord :=
  match users.find? (fun u => u.1 == user_email) with
  | none => ({ success := false, error := some "User not found" }, none)
  | some u =>
      let app_ref := generate_simple_ref year r
      ({ success := true, id := some nextId, reference := some app_ref },
        some { user_id := u.2, app_ref := app_ref, platform := platform,
               job_title := if job_title = "" then "Not Specified"
                 else String.mk (job_title.data.take 255),
               company := if company = "" then "Not Specified"
                 else String.mk (company.data.take 255),
               status := status })

/-- C7: every generated reference has the form
`APP-<year>-<6 uppercase letters / digits>`; when the referenced user
record does not exist, `log_application` returns
`{success: False, error: 'User not found'}` with no row inserted,
instead of raising; when the user exists it succeeds and returns the
formatted reference. -/
theorem log_submission_ref_format_and_missing_user (users : List (String × Nat))
    (nextId year : Nat) (r : Fin 6 → Fin 36)
    (user_email platform job_title company status : String) :
    (∃ tail : String, generate_simple_ref year r = "APP-" ++ toString year ++ "-" ++ tail ∧
      tail.length = 6 ∧ ∀ c ∈ tail.data, c ∈ refAlphabet) ∧
    (users.find? (fun u => u.1 == user_email) = none →
      (log_application users nextId year r user_email platform job_title company status).1 =
        { success := false, error := some "User not found" } ∧
      (log_application users nextId year r user_email platform job_title company status).2 =
        none) ∧
    (∀ u, users.find? (fun u => u.1 == user_email) = some u →
      (log_application users nextId year r user_email platform job_title company status).1 =
        { success := true, id := some nextId,
          reference := some (generate_simple_ref year r) }) := by
  refine ⟨?_, ?_, ?_⟩
  · refine ⟨String.mk ((List.finRange 6).map (fun i => refAlphabet.getD (r i).val 'A')), rfl,
      ?_, ?_⟩
    · show ((List.finRange 6).map (fun i => refAlphabet.getD (r i).val 'A')).length = 6
      simp
    · intro c hc
      rcases List.mem_map.mp hc with ⟨i, _, rfl⟩
      have hlt : (r i).val < refAlphabet.length := by
        have h36 : refAlphabet.length = 36 := by decide
        rw [h36]
        exact (r i).isLt
      rw [List.getD_eq_getElem refAlphabet 'A' hlt]
      exact List.getElem_mem hlt
  · intro hnone
    unfold log_application
    rw [hnone]
    exact ⟨rfl, rfl⟩
  · intro u hu
    unfold log_application
    rw [hu]

/-- Witness for C7: a one-user table, queried for a missing email and
for the existing one. -/
theorem log_submission_ref_format_and_missing_user_witness :
    ((∃ tail : String, generate_simple_ref 2024 (fun _ => ⟨0, by norm_num⟩) =
        "APP-" ++ toString 2024 ++ "-" ++ tail ∧
        tail.length = 6 ∧ ∀ c ∈ tail.data, c ∈ refAlphabet) ∧
      (([("alice@example.com", 7)] : List (String × Nat)).find?
          (fun u => u.1 == "missing@example.com") = none ∧
        (log_application [("alice@example.com", 7)] 42 2024 (fun _ => ⟨0, by norm_num⟩)
            "missing@example.com" "dice" "Engineer" "Acme" "submitted").1 =
          { success := false, error := some "User not found" } ∧
        (log_application [("alice@example.com", 7)] 42 2024 (fun _ => ⟨0, by norm_num⟩)
            "missing@example.com" "dice" "Engineer" "Acme" "submitted").2 = none)) ∧
    (([("alice@example.com", 7)] : List (String × Nat)).find?
        (fun u => u.1 == "alice@example.com") = some ("alice@example.com", 7) ∧
      (log_application [("alice@example.com", 7)] 42 2024 (fun _ => ⟨0, by norm_num⟩)
          "alice@example.com" "dice" "Engineer" "Acme" "submitted").1 =
        { success := true, id := some 42,
          reference := some (generate_simple_ref 2024 (fun _ => ⟨0, by norm_num⟩)) }) :=
  ⟨⟨(log_submission_ref_format_and_missing_user [("alice@example.com", 7)] 42 2024
      (fun _ => ⟨0, by norm_num⟩) "missing@example.com" "dice" "Engineer" "Acme" "submitted").1,
    by decide,
    (log_submission_ref_format_and_missing_user [("alice@example.com", 7)] 42 2024
      (fun _ => ⟨0, by norm_num⟩) "missing@example.com" "dice" "Engineer" "Acme"
      "submitted").2.1 (by decide)⟩,
  by decide,
  (log_submission_ref_format_and_missing_user [("alice@example.com", 7)] 42 2024
      (fun _ => ⟨0, by norm_num⟩) "alice@example.com" "dice" "Engineer" "Acme"
      "submitted").2.2 ("alice@example.com", 7) (by decide)⟩
